import Mathlib

/-!
Shallow embedding of the qinling python2 runtime server (`runtimes/python2/server.py`):
the `/execute` request handler, the sandboxed child `_invoke_function`, entry-point
resolution, outcome classification and log capture.  External collaborators (the
package-download sidecar, the cgroup limiter, the identity service) and the user
callable are modelled as environment parameters; everything the handler itself does
is translated from the source.
-/

/-- JSON-compatible python values flowing through the runtime (function input values,
results, the injected context dict).  `vnone` is python `None`. -/
inductive Val where
  | vnone
  | str (s : String)
  | nat (n : Nat)
  | bool (b : Bool)
  | dict (l : List (String × Val))

/-- Python truthiness (`if arg:`) for the values we model: `None`, `""`, `0`, `False`
and `{}` are falsy. -/
def Val.truthy : Val → Bool
  | Val.vnone => false
  | Val.str s => !(s == "")
  | Val.nat n => !(n == 0)
  | Val.bool b => b
  | Val.dict l => !l.isEmpty

/-- Truthiness of an optional string parameter (`params.get(...)` gives `None` or a
string; `if entry:` / `if auth_url:` treat `None` and `""` as false). -/
def optTruthy : Option String → Bool
  | Option.none => false
  | Option.some s => !(s == "")

/-- `"Resource" in str(e)`: substring test, as python `in` on strings. -/
def strContains (s pat : String) : Bool :=
  decide (pat.data <:+: s.data)

/-- `DOWNLOAD_ERROR`-style fixed message `INVOKE_ERROR` from the source
(`"Function execution failed because of too much resource " "consumption"`). -/
def INVOKE_ERROR : String :=
  "Function execution failed because of too much resource " ++ "consumption"

/-- Python dict assignment `d[k] = v` (as done by `input.update({'context': ...})`):
replace the binding in place when the key is present, otherwise append it (keys of
a python dict are unique, so replacing the first occurrence is replacement). -/
def dictSet : List (String × Val) → String → Val → List (String × Val)
  | [], k, v => [(k, v)]
  | (a, b) :: t, k, v =>
    if a == k then (k, v) :: t else (a, b) :: dictSet t k v

/-- Python `d.pop(k, default)`'s removal effect: drop every binding of `k`. -/
def dictRemove (l : List (String × Val)) (k : String) : List (String × Val) :=
  l.filter (fun p => !(p.1 == k))

/-- Split a character list at the LAST occurrence of `sep`: `some (before, after)`
when `sep` occurs, `none` otherwise.  Implements the maxsplit-1 part of python
`s.rsplit(sep, 1)`. -/
def splitLast (sep : Char) : List Char → Option (List Char × List Char)
  | [] => Option.none
  | c :: cs =>
    match splitLast sep cs with
    | Option.some (l, r) => Option.some (c :: l, r)
    | Option.none => if c == sep then Option.some ([], cs) else Option.none

/-- Python `s.rsplit(sep, 1)`: a two-element list split at the last separator, or the
one-element list `[s]` when the separator does not occur. -/
def rsplit1 (sep : Char) (s : String) : List String :=
  match splitLast sep s.data with
  | Option.some (l, r) => [String.mk l, String.mk r]
  | Option.none => [s]

/-- Failure modes of the `execute` handler that escape as uncaught python
exceptions (no `InvocationResponse` is produced): the `ValueError` from
destructuring a dotless entry into `(module, method)`, and the `IOError` from
opening the per-execution log file when the child never created it. -/
inductive ExecErr where
  | valueError
  | logMissing
  deriving DecidableEq

/-- Lines 155-157 of the source:
`function_module, function_method = 'main', 'main'` then, when `entry` is truthy,
`function_module, function_method = tuple(entry.rsplit('.', 1))` — which raises
`ValueError` when the rsplit yields a single component. -/
def resolveEntry : Option String → Except ExecErr (String × String)
  | Option.none => Except.ok ("main", "main")
  | Option.some e =>
    if e == "" then Except.ok ("main", "main")
    else
      match rsplit1 '.' e with
      | [m, f] => Except.ok (m, f)
      | _ => Except.error ExecErr.valueError

/-- The two call shapes of line 113: `func(arg, **input) if arg else func(**input)`.
`positional = some v` means the callable got `v` as its sole positional argument. -/
structure CallShape where
  positional : Option Val
  keywords : List (String × Val)

/-- What the resolved user callable does when invoked: return a value, raise an
exception (`isOSError` records `isinstance(e, OSError)`), or be killed out-of-band
by the kernel with signal `sig` (no python-level exit path runs). -/
inductive UserOutcome where
  | returns (v : Val)
  | raises (msg : String) (isOSError : Bool)
  | killed (sig : Nat)

/-- Environment of the sandboxed child process: the cgroup-limiter collaborator's
verdict and error body, the behaviour of the resolved callable (a function of
module name, method name and call shape), the text user code wrote to stdout, and
the text `_print_trace` emits on an exception. -/
structure ChildEnv where
  limiterOk : Bool
  limiterContent : String
  call : String → String → CallShape → UserOutcome
  userLog : String
  trace : String

/-- Observable outcome of the child process, as the parent sees it: the process exit
status, the shared `return_dict` fields (`result` is `none` when the child never
wrote it; `success` is the parent-initialised `False` unless overwritten), whether
the `<execution_id>.out` log file was created, its content, and the call shape the
user callable actually received (`none` when user code never ran). -/
structure ChildResult where
  exitcode : Int
  result : Option Val
  success : Bool
  logCreated : Bool
  log : String
  callMade : Option CallShape

/-- `print('Start execution: %s' % execution_id)` (line 108). -/
def startLine (id : String) : String := "Start execution: " ++ id ++ "\n"

/-- `print('Finished execution: %s' % execution_id)` in the `finally` block. -/
def finishedLine (id : String) : String := "Finished execution: " ++ id ++ "\n"

/-- Line 113's branch on truthiness of the popped positional argument. -/
def callShape (arg : Val) (input : List (String × Val)) : CallShape :=
  if arg.truthy then { positional := Option.some arg, keywords := input }
  else { positional := Option.none, keywords := input }

/-- `_invoke_function` (lines 75-124), running in the child process:
cgroup-limit via the collaborator — on rejection record its content with
`success=False` and `sys.exit(0)` (before the stdout redirect, so no log file);
otherwise redirect stdout to `<execution_id>.out`, print the start marker, call the
user function, record the outcome (`sys.exit(1)` on a resource-`OSError`, recording
nothing), and print the finished marker in `finally`.  A kernel kill terminates the
process with a negative status and skips the `finally`. -/
def invokeFunction (execution_id fmodule fmethod : String) (arg : Val)
    (input : List (String × Val)) (env : ChildEnv) : ChildResult :=
  if env.limiterOk then
    let shape := callShape arg input
    match env.call fmodule fmethod shape with
    | UserOutcome.returns v =>
      { exitcode := 0, result := Option.some v, success := true, logCreated := true,
        log := startLine execution_id ++ env.userLog ++ finishedLine execution_id,
        callMade := Option.some shape }
    | UserOutcome.raises msg isOSError =>
      if isOSError && strContains msg "Resource" then
        { exitcode := 1, result := Option.none, success := false, logCreated := true,
          log := startLine execution_id ++ env.userLog ++ env.trace
                   ++ finishedLine execution_id,
          callMade := Option.some shape }
      else
        { exitcode := 0, result := Option.some (Val.str msg), success := false,
          logCreated := true,
          log := startLine execution_id ++ env.userLog ++ env.trace
                   ++ finishedLine execution_id,
          callMade := Option.some shape }
    | UserOutcome.killed sig =>
      { exitcode := -(sig : Int), result := Option.none, success := false,
        logCreated := true,
        log := startLine execution_id ++ env.userLog,
        callMade := Option.some shape }
  else
    { exitcode := 0, result := Option.some (Val.str env.limiterContent),
      success := false, logCreated := false, log := "", callMade := Option.none }

/-- Lines 225-231: outcome classification in the parent.  Non-zero child exit yields
the fixed resource-consumption message with `success=False` regardless of the shared
dict's content; zero exit surfaces `return_dict.get('result')` (`None` when unset)
and `return_dict['success']`. -/
def classify (exitcode : Int) (result : Option Val) (success : Bool) : Val × Bool :=
  if exitcode = 0 then (result.getD Val.vnone, success)
  else (Val.str INVOKE_ERROR, false)

/-- The JSON body of `_get_responce` plus the HTTP status code. -/
structure InvocationResponse where
  output : Val
  duration : Nat
  logs : String
  success : Bool
  http_status : Nat

/-- The request fields `execute` reads.  `execution_id`, `cpu` and `memory_size` are
accessed with mandatory indexing in the source; the rest default to `None` (or `{}`
for `input`). -/
structure InvocationRequest where
  execution_id : String
  input : List (String × Val)
  download_url : Option String
  function_id : Option String
  entry : Option String
  request_id : Option String
  trust_id : Option String
  auth_url : Option String
  username : Option String
  password : Option String
  cpu : Nat
  memory_size : Nat

/-- Environment of the parent handler: the package-download collaborator's verdict
and body, the child-process environment, the opaque keystone session value built
when `auth_url` is truthy, and the measured wall-clock duration of the sandbox. -/
structure ServerEnv where
  downloadOk : Bool
  downloadContent : String
  child : ChildEnv
  sessionVal : Val
  elapsed : Nat

/-- Everything observable about one run of the `execute` handler: the response (or
the uncaught exception), whether the sandbox process was spawned, the child's
result when it was, and whether the per-execution log file still exists on disk
after the handler finishes. -/
structure ExecOutcome where
  response : Except ExecErr InvocationResponse
  spawned : Bool
  childResult : Option ChildResult
  finalLogExists : Bool

/-- Line 197: `input.update({'context': {'os_session': os_session}})`, where
`os_session` is the keystone session when `auth_url` is truthy and `None`
otherwise.  Applied unconditionally. -/
def input1Of (req : InvocationRequest) (env : ServerEnv) : List (String × Val) :=
  dictSet req.input "context"
    (Val.dict [("os_session",
      if optTruthy req.auth_url then env.sessionVal else Val.vnone)])

/-- `input.pop('__function_input', None)` (line 213): the popped value, `None` when
the key is absent. -/
def argOf (req : InvocationRequest) (env : ServerEnv) : Val :=
  ((input1Of req env).lookup "__function_input").getD Val.vnone

/-- The keyword mapping handed to the child after the pop. -/
def kwOf (req : InvocationRequest) (env : ServerEnv) : List (String × Val) :=
  dictRemove (input1Of req env) "__function_input"

/-- Lines 204-238 once the download succeeded: spawn the child, wait for it,
classify `(exitcode, return_dict)`, then read and delete `<execution_id>.out` —
raising `IOError` when the file was never created (the limiter-rejection path),
in which case no response is assembled. -/
def runSandbox (req : InvocationRequest) (env : ServerEnv) (fm fme : String) :
    ExecOutcome :=
  let cr := invokeFunction req.execution_id fm fme (argOf req env) (kwOf req env)
              env.child
  let oc := classify cr.exitcode cr.result cr.success
  if cr.logCreated then
    { response := Except.ok
        { output := oc.1, duration := env.elapsed, logs := cr.log,
          success := oc.2, http_status := 200 },
      spawned := true, childResult := Option.some cr, finalLogExists := false }
  else
    { response := Except.error ExecErr.logMissing, spawned := true,
      childResult := Option.some cr, finalLogExists := false }

/-- The `/execute` handler (lines 127-238): entry resolution (raising `ValueError`
on a dotless entry, before anything else), the package-download call (a failing
collaborator yields an immediate `(content, 0, '', False, 500)` response with no
sandbox spawned), then session injection, argument pop, sandbox run and response
assembly with status 200. -/
def execute (req : InvocationRequest) (env : ServerEnv) : ExecOutcome :=
  match resolveEntry req.entry with
  | Except.error _ =>
    { response := Except.error ExecErr.valueError, spawned := false,
      childResult := Option.none, finalLogExists := false }
  | Except.ok (fm, fme) =>
    if env.downloadOk then runSandbox req env fm fme
    else
      { response := Except.ok
          { output := Val.str env.downloadContent, duration := 0, logs := "",
            success := false, http_status := 500 },
        spawned := false, childResult := Option.none, finalLogExists := false }

/-! ### Concrete fixtures used by witnesses and counterexamples -/

/-- A minimal request: only the mandatory fields, everything optional absent. -/
def reqBase : InvocationRequest :=
  { execution_id := "e1", input := [], download_url := Option.none,
    function_id := Option.none, entry := Option.none, request_id := Option.none,
    trust_id := Option.none, auth_url := Option.none, username := Option.none,
    password := Option.none, cpu := 1, memory_size := 32 }

/-- A child environment whose callable just returns `v`. -/
def childRet (v : Val) : ChildEnv :=
  { limiterOk := true, limiterContent := "", call := fun _ _ _ => UserOutcome.returns v,
    userLog := "", trace := "" }

/-- A server environment with working collaborators around `childRet`. -/
def envRet : ServerEnv :=
  { downloadOk := true, downloadContent := "", child := childRet (Val.nat 7),
    sessionVal := Val.str "sess", elapsed := 3 }

/-- A child environment whose callable raises a resource-exhaustion `OSError`. -/
def childResRaise : ChildEnv :=
  { limiterOk := true, limiterContent := "",
    call := fun _ _ _ =>
      UserOutcome.raises "Resource temporarily unavailable" true,
    userLog := "", trace := "TRACE\n" }

/-- A child environment whose cgroup-limiter call is rejected. -/
def childLimFail : ChildEnv :=
  { limiterOk := false, limiterContent := "limiter down",
    call := fun _ _ _ => UserOutcome.returns Val.vnone,
    userLog := "", trace := "" }

/-- A server environment around `childLimFail`. -/
def envLimFail : ServerEnv :=
  { downloadOk := true, downloadContent := "", child := childLimFail,
    sessionVal := Val.vnone, elapsed := 2 }

/-- A server environment whose package-download collaborator fails. -/
def envDownFail : ServerEnv :=
  { downloadOk := false, downloadContent := "download failed",
    child := childRet (Val.nat 7), sessionVal := Val.vnone, elapsed := 0 }

/-- A request whose reserved positional-argument key holds the falsy value `0`. -/
def reqFalsyArg : InvocationRequest :=
  { reqBase with input := [("__function_input", Val.nat 0)] }

/-- A request whose reserved positional-argument key holds a truthy value. -/
def reqTruthyArg : InvocationRequest :=
  { reqBase with input := [("x", Val.nat 1), ("__function_input", Val.str "pos")] }

/-! ### Helper lemmas -/

theorem string_mk_data (s : String) : String.mk s.data = s := rfl

theorem splitLast_eq_none (sep : Char) (l : List Char) (h : sep ∉ l) :
    splitLast sep l = Option.none := by
  induction l with
  | nil => rfl
  | cons c cs ih =>
    have hc : c ≠ sep := fun hEq => h (hEq ▸ List.mem_cons_self c cs)
    have hcs : sep ∉ cs := fun hm => h (List.mem_cons_of_mem c hm)
    simp [splitLast, ih hcs, beq_iff_eq, hc]

theorem splitLast_append (sep : Char) (a b : List Char) (h : sep ∉ b) :
    splitLast sep (a ++ sep :: b) = Option.some (a, b) := by
  induction a with
  | nil => simp [splitLast, splitLast_eq_none sep b h]
  | cons c a ih => simp [splitLast, ih]

theorem resolveEntry_dotted (a b : String) (h : '.' ∉ b.data) :
    resolveEntry (Option.some (a ++ "." ++ b)) = Except.ok (a, b) := by
  have hdata : (a ++ "." ++ b).data = a.data ++ '.' :: b.data := by
    simp [String.data_append]
  have hne : (a ++ "." ++ b) ≠ "" := by
    intro hEq
    have : (a ++ "." ++ b).data = ([] : List Char) := by rw [hEq]
    rw [hdata] at this
    exact absurd this (by simp)
  have hsplit : rsplit1 '.' (a ++ "." ++ b) = [a, b] := by
    unfold rsplit1
    rw [hdata, splitLast_append '.' a.data b.data h]
  simp [resolveEntry, beq_iff_eq, hne, hsplit]

theorem lookup_dictSet (l : List (String × Val)) (k : String) (v : Val) :
    (dictSet l k v).lookup k = Option.some v := by
  induction l with
  | nil => simp [dictSet, List.lookup]
  | cons p t ih =>
    obtain ⟨a, b⟩ := p
    by_cases hak : a = k
    · subst hak
      simp [dictSet, List.lookup]
    · have hak' : (a == k) = false := by
        rw [beq_eq_false_iff_ne]
        exact hak
      have hka' : (k == a) = false := by
        rw [beq_eq_false_iff_ne]
        exact Ne.symm hak
      simp [dictSet, hak', List.lookup, hka', ih]

theorem lookup_dictRemove_ne (l : List (String × Val)) (k kdel : String)
    (h : k ≠ kdel) :
    (dictRemove l kdel).lookup k = l.lookup k := by
  induction l with
  | nil => rfl
  | cons p t ih =>
    obtain ⟨a, b⟩ := p
    by_cases hak : a = kdel
    · subst hak
      have hka : (k == a) = false := by
        rw [beq_eq_false_iff_ne]
        exact h
      simp [dictRemove, List.filter, List.lookup, hka] at ih ⊢
      exact ih
    · have hak' : (a == kdel) = false := by
        rw [beq_eq_false_iff_ne]
        exact hak
      simp [dictRemove, List.filter, hak', List.lookup] at ih ⊢
      rw [ih]

theorem logCreated_of_limiterOk (id fm fme : String) (arg : Val)
    (input : List (String × Val)) (env : ChildEnv) (hL : env.limiterOk = true) :
    (invokeFunction id fm fme arg input env).logCreated = true := by
  simp only [invokeFunction, hL, if_true]
  split
  all_goals first | rfl | (split <;> rfl)

theorem callMade_of_limiterOk (id fm fme : String) (arg : Val)
    (input : List (String × Val)) (env : ChildEnv) (hL : env.limiterOk = true) :
    (invokeFunction id fm fme arg input env).callMade
      = Option.some (callShape arg input) := by
  simp only [invokeFunction, hL, if_true]
  split
  all_goals first | rfl | (split <;> rfl)

theorem callShape_keywords (arg : Val) (input : List (String × Val)) :
    (callShape arg input).keywords = input := by
  unfold callShape
  split <;> rfl

theorem runSandbox_of_limiterOk (req : InvocationRequest) (env : ServerEnv)
    (fm fme : String) (hL : env.child.limiterOk = true) :
    runSandbox req env fm fme =
      (let cr := invokeFunction req.execution_id fm fme (argOf req env)
                   (kwOf req env) env.child
       let oc := classify cr.exitcode cr.result cr.success
       { response := Except.ok
           { output := oc.1, duration := env.elapsed, logs := cr.log,
             success := oc.2, http_status := 200 },
         spawned := true, childResult := Option.some cr,
         finalLogExists := false }) := by
  unfold runSandbox
  simp only [logCreated_of_limiterOk _ _ _ _ _ _ hL, if_true]

/-! ### Claims about entry-point resolution -/

/-- Claim C7: entry-point resolution defaults to module `main`, method `main` when
`entry` is omitted, and otherwise splits the dotted entry string into module and
method at the LAST separator (so any `a ++ "." ++ b` with a dot-free `b` resolves
to module `a`, method `b`; in particular `"mod.fn"` gives `("mod", "fn")`). -/
theorem entry_resolution :
    resolveEntry Option.none = Except.ok ("main", "main") ∧
    ∀ a b : String, '.' ∉ b.data →
      resolveEntry (Option.some (a ++ "." ++ b)) = Except.ok (a, b) :=
  ⟨rfl, resolveEntry_dotted⟩

/-- Witness for C7 at the concrete entry string `"mod.fn"`. -/
theorem entry_resolution_witness :
    resolveEntry (Option.some ("mod" ++ "." ++ "fn")) = Except.ok ("mod", "fn") :=
  entry_resolution.2 "mod" "fn" (by decide)

/-- Claim C10: a non-empty entry string without a dot makes the tuple destructuring
of `entry.rsplit('.', 1)` raise `ValueError` before the download call and before any
sandbox process is spawned: the handler escapes with the error and assembles no
`InvocationResponse`. -/
theorem entry_without_dot_raises (req : InvocationRequest) (env : ServerEnv)
    (e : String) (hent : req.entry = Option.some e) (hne : e ≠ "")
    (hdot : '.' ∉ e.data) :
    execute req env =
      { response := Except.error ExecErr.valueError, spawned := false,
        childResult := Option.none, finalLogExists := false } := by
  have hsplit : rsplit1 '.' e = [e] := by
    unfold rsplit1
    rw [splitLast_eq_none '.' e.data hdot]
  have hres : resolveEntry (Option.some e) = Except.error ExecErr.valueError := by
    simp [resolveEntry, beq_iff_eq, hne, hsplit]
  unfold execute
  rw [hent, hres]

/-- Witness for C10 at the concrete entry string `"mainfn"`. -/
theorem entry_without_dot_raises_witness :
    execute { reqBase with entry := Option.some "mainfn" } envRet =
      { response := Except.error ExecErr.valueError, spawned := false,
        childResult := Option.none, finalLogExists := false } :=
  entry_without_dot_raises { reqBase with entry := Option.some "mainfn" } envRet
    "mainfn" rfl (by decide) (by decide)

/-! ### Claims about outcome classification and the sandbox -/

theorem execute_run (req : InvocationRequest) (env : ServerEnv) (fm fme : String)
    (hE : resolveEntry req.entry = Except.ok (fm, fme))
    (hD : env.downloadOk = true) :
    execute req env = runSandbox req env fm fme := by
  unfold execute
  rw [hE]
  simp [hD]

/-- Counterexample to claim C1 as stated: an invocation whose sandbox process IS
spawned and whose child exits with status 0 and recorded `success=false` (the
limiter-rejection path, which records the collaborator's error string), yet the
handler produces NO response at all — it raises on the never-created log file —
so the response does not have `success=false` with the recorded error string as
output. -/
theorem classification_claim_counterexample :
    (execute reqBase envLimFail).spawned = true ∧
    (invokeFunction "e1" "main" "main" (argOf reqBase envLimFail)
        (kwOf reqBase envLimFail) envLimFail.child).exitcode = 0 ∧
    (invokeFunction "e1" "main" "main" (argOf reqBase envLimFail)
        (kwOf reqBase envLimFail) envLimFail.child).success = false ∧
    (invokeFunction "e1" "main" "main" (argOf reqBase envLimFail)
        (kwOf reqBase envLimFail) envLimFail.child).result
      = Option.some (Val.str "limiter down") ∧
    (execute reqBase envLimFail).response = Except.error ExecErr.logMissing :=
  ⟨rfl, rfl, rfl, rfl, rfl⟩

/-- Claim C1 (amended): for every invocation whose sandbox is spawned AND whose
cgroup-limiter call succeeds (so the child creates its log file — without this
the spawned child exits 0 with recorded `success=false` but the handler raises
and produces no response):
a callable that returns `v` yields a 200 response with `success=true, output=v`;
a callable that raises a non-resource exception with message `msg` yields
`success=false, output=msg` (the recorded error string); and any non-zero child
exit — the resource-`OSError` exit or a kernel kill — yields `success=false` with
the fixed resource-consumption message; moreover the parent's classifier maps
EVERY non-zero exit status to that fixed message regardless of the recorded
result. -/
theorem execute_outcome_classification (req : InvocationRequest) (env : ServerEnv)
    (fm fme : String)
    (hE : resolveEntry req.entry = Except.ok (fm, fme))
    (hD : env.downloadOk = true)
    (hL : env.child.limiterOk = true) :
    (∀ v, env.child.call fm fme (callShape (argOf req env) (kwOf req env))
            = UserOutcome.returns v →
       (execute req env).response = Except.ok
         { output := v, duration := env.elapsed,
           logs := startLine req.execution_id ++ env.child.userLog
                     ++ finishedLine req.execution_id,
           success := true, http_status := 200 }) ∧
    (∀ msg isOS, env.child.call fm fme (callShape (argOf req env) (kwOf req env))
            = UserOutcome.raises msg isOS →
       (isOS && strContains msg "Resource") = false →
       (execute req env).response = Except.ok
         { output := Val.str msg, duration := env.elapsed,
           logs := startLine req.execution_id ++ env.child.userLog
                     ++ env.child.trace ++ finishedLine req.execution_id,
           success := false, http_status := 200 }) ∧
    (∀ msg isOS, env.child.call fm fme (callShape (argOf req env) (kwOf req env))
            = UserOutcome.raises msg isOS →
       (isOS && strContains msg "Resource") = true →
       (execute req env).response = Except.ok
         { output := Val.str INVOKE_ERROR, duration := env.elapsed,
           logs := startLine req.execution_id ++ env.child.userLog
                     ++ env.child.trace ++ finishedLine req.execution_id,
           success := false, http_status := 200 }) ∧
    (∀ sig : Nat, 0 < sig →
       env.child.call fm fme (callShape (argOf req env) (kwOf req env))
            = UserOutcome.killed sig →
       (execute req env).response = Except.ok
         { output := Val.str INVOKE_ERROR, duration := env.elapsed,
           logs := startLine req.execution_id ++ env.child.userLog,
           success := false, http_status := 200 }) ∧
    (∀ (ec : Int) (res : Option Val) (su : Bool), ec ≠ 0 →
       classify ec res su = (Val.str INVOKE_ERROR, false)) := by
  rw [execute_run req env fm fme hE hD]
  refine ⟨?_, ?_, ?_, ?_, ?_⟩
  · intro v hc
    simp [runSandbox, invokeFunction, hL, hc, classify]
  · intro msg isOS hc hres
    simp [runSandbox, invokeFunction, hL, hc, hres, classify]
  · intro msg isOS hc hres
    simp [runSandbox, invokeFunction, hL, hc, hres, classify]
  · intro sig hsig hc
    have hne : -(sig : Int) ≠ 0 := by omega
    simp [runSandbox, invokeFunction, hL, hc, classify, hne]
  · intro ec res su hne
    simp [classify, hne]

/-- Witness for C1: a callable returning `7` produces a 200 response with
`success=true` and output `7`. -/
theorem execute_outcome_classification_witness :
    (execute reqBase envRet).response = Except.ok
      { output := Val.nat 7, duration := 3,
        logs := startLine "e1" ++ "" ++ finishedLine "e1",
        success := true, http_status := 200 } := by
  exact (execute_outcome_classification reqBase envRet "main" "main" rfl rfl rfl).1
    (Val.nat 7) rfl

/-- Claim C8: inside the sandbox, an exception from user code that is an `OSError`
whose message mentions `Resource` makes the child exit with the distinguished
status 1 recording no result, while any other exception is recorded as
`success=False` with the exception's message as the result and exit status 0. -/
theorem sandbox_exception_handling (id fm fme : String) (arg : Val)
    (input : List (String × Val)) (env : ChildEnv) (msg : String) (isOS : Bool)
    (hL : env.limiterOk = true)
    (hc : env.call fm fme (callShape arg input) = UserOutcome.raises msg isOS) :
    ((isOS && strContains msg "Resource") = true →
       invokeFunction id fm fme arg input env =
         { exitcode := 1, result := Option.none, success := false,
           logCreated := true,
           log := startLine id ++ env.userLog ++ env.trace ++ finishedLine id,
           callMade := Option.some (callShape arg input) }) ∧
    ((isOS && strContains msg "Resource") = false →
       invokeFunction id fm fme arg input env =
         { exitcode := 0, result := Option.some (Val.str msg), success := false,
           logCreated := true,
           log := startLine id ++ env.userLog ++ env.trace ++ finishedLine id,
           callMade := Option.some (callShape arg input) }) := by
  constructor
  · intro hres
    simp [invokeFunction, hL, hc, hres]
  · intro hres
    simp [invokeFunction, hL, hc, hres]

/-- Witness for C8: a resource-`OSError` makes the child exit 1 without a result. -/
theorem sandbox_exception_handling_witness :
    invokeFunction "e1" "main" "main" Val.vnone [] childResRaise =
      { exitcode := 1, result := Option.none, success := false, logCreated := true,
        log := startLine "e1" ++ "" ++ "TRACE\n" ++ finishedLine "e1",
        callMade := Option.some (callShape Val.vnone []) } := by
  exact (sandbox_exception_handling "e1" "main" "main" Val.vnone [] childResRaise
    "Resource temporarily unavailable" true rfl rfl).1 (by decide)

/-- Claim C9: on every python-level exit path of the sandbox that reaches user
code — normal return, exception recorded as a result, and the explicit
resource-exhaustion exit — the captured log ends with the `Finished execution`
marker line (written by the `finally` block before the process terminates). -/
theorem finished_marker_written (id fm fme : String) (arg : Val)
    (input : List (String × Val)) (env : ChildEnv) (hL : env.limiterOk = true) :
    (∀ v, env.call fm fme (callShape arg input) = UserOutcome.returns v →
       (invokeFunction id fm fme arg input env).log
         = (startLine id ++ env.userLog) ++ finishedLine id) ∧
    (∀ msg isOS, env.call fm fme (callShape arg input)
           = UserOutcome.raises msg isOS →
       (invokeFunction id fm fme arg input env).log
         = (startLine id ++ env.userLog ++ env.trace) ++ finishedLine id) := by
  constructor
  · intro v hc
    simp [invokeFunction, hL, hc]
  · intro msg isOS hc
    simp only [invokeFunction, hL, if_true, hc]
    split <;> rfl

/-- Witness for C9: both on a normal return and on a recorded exception the log
ends with the finished marker. -/
theorem finished_marker_written_witness :
    (invokeFunction "e1" "main" "main" Val.vnone [] (childRet (Val.nat 7))).log
      = (startLine "e1" ++ "") ++ finishedLine "e1" ∧
    (invokeFunction "e1" "main" "main" Val.vnone [] childResRaise).log
      = (startLine "e1" ++ "" ++ "TRACE\n") ++ finishedLine "e1" := by
  constructor
  · exact (finished_marker_written "e1" "main" "main" Val.vnone []
      (childRet (Val.nat 7)) rfl).1 (Val.nat 7) rfl
  · exact (finished_marker_written "e1" "main" "main" Val.vnone []
      childResRaise rfl).2 "Resource temporarily unavailable" true rfl


/-! ### Claims about collaborator failures, input shaping and cleanup -/

/-- Claim C3: when the package-download collaborator fails, the handler returns
immediately with the collaborator's raw content as output, `success=false`,
duration 0, empty logs and HTTP status 500, spawning no sandbox process; and every
response the handler assembles after a successful download carries HTTP status
200, whether `success` is true or false. -/
theorem download_failure_response (req : InvocationRequest) (env : ServerEnv)
    (fm fme : String) (hE : resolveEntry req.entry = Except.ok (fm, fme)) :
    (env.downloadOk = false →
       execute req env =
         { response := Except.ok
             { output := Val.str env.downloadContent, duration := 0, logs := "",
               success := false, http_status := 500 },
           spawned := false, childResult := Option.none,
           finalLogExists := false }) ∧
    (env.downloadOk = true →
       ∀ r, (execute req env).response = Except.ok r → r.http_status = 200) := by
  constructor
  · intro hD
    unfold execute
    rw [hE]
    simp [hD]
  · intro hD r hr
    rw [execute_run req env fm fme hE hD] at hr
    simp only [runSandbox] at hr
    split at hr
    · simp only [Except.ok.injEq] at hr
      rw [← hr]
    · exact absurd hr (by simp)

/-- Witness for C3: a failing download yields the 500 response with the
collaborator's content and no sandbox, and a completed invocation yields 200. -/
theorem download_failure_response_witness :
    execute reqBase envDownFail =
      { response := Except.ok
          { output := Val.str "download failed", duration := 0, logs := "",
            success := false, http_status := 500 },
        spawned := false, childResult := Option.none, finalLogExists := false } ∧
    (200 : Nat) = 200 := by
  constructor
  · exact (download_failure_response reqBase envDownFail "main" "main" rfl).1 rfl
  · have h := (download_failure_response reqBase envRet "main" "main" rfl).2 rfl
      { output := Val.nat 7, duration := 3,
        logs := startLine "e1" ++ "" ++ finishedLine "e1",
        success := true, http_status := 200 } rfl
    exact h

/-- Counterexample to claim C2 as stated: with a rejected cgroup-limiter call the
child exits with status ZERO (not a non-zero exit), recording the collaborator's
payload as its result, and the handler then raises on the never-created log file
instead of producing a response carrying the fixed resource-consumption message. -/
theorem limiter_failure_claim_counterexample :
    (invokeFunction "e1" "main" "main" Val.vnone [] childLimFail).exitcode = 0 ∧
    (invokeFunction "e1" "main" "main" Val.vnone [] childLimFail).result
      = Option.some (Val.str "limiter down") ∧
    (execute reqBase envLimFail).response = Except.error ExecErr.logMissing :=
  ⟨rfl, rfl, rfl⟩

/-- Claim C2 (amended): when the cgroup-limiter collaborator reports failure, user
code is never run; the child records the collaborator's error payload with
`success=False` and exits with status 0 before creating the log file, so the
handler raises an internal error on the missing log file and neither the payload
nor the fixed resource-consumption message is surfaced in a response. -/
theorem limiter_failure_behavior (req : InvocationRequest) (env : ServerEnv)
    (fm fme : String) (hE : resolveEntry req.entry = Except.ok (fm, fme))
    (hD : env.downloadOk = true) (hL : env.child.limiterOk = false) :
    invokeFunction req.execution_id fm fme (argOf req env) (kwOf req env)
        env.child
      = { exitcode := 0, result := Option.some (Val.str env.child.limiterContent),
          success := false, logCreated := false, log := "",
          callMade := Option.none } ∧
    (execute req env).response = Except.error ExecErr.logMissing ∧
    (execute req env).spawned = true := by
  have hinv : invokeFunction req.execution_id fm fme (argOf req env)
      (kwOf req env) env.child
      = { exitcode := 0, result := Option.some (Val.str env.child.limiterContent),
          success := false, logCreated := false, log := "",
          callMade := Option.none } := by
    simp [invokeFunction, hL]
  refine ⟨hinv, ?_, ?_⟩
  · rw [execute_run req env fm fme hE hD]
    simp [runSandbox, hinv]
  · rw [execute_run req env fm fme hE hD]
    simp [runSandbox, hinv]

/-- Witness for C2 (amended) on a concrete rejected-limiter environment. -/
theorem limiter_failure_behavior_witness :
    invokeFunction "e1" "main" "main" (argOf reqBase envLimFail)
        (kwOf reqBase envLimFail) childLimFail
      = { exitcode := 0, result := Option.some (Val.str "limiter down"),
          success := false, logCreated := false, log := "",
          callMade := Option.none } ∧
    (execute reqBase envLimFail).response = Except.error ExecErr.logMissing ∧
    (execute reqBase envLimFail).spawned = true := by
  exact limiter_failure_behavior reqBase envLimFail "main" "main" rfl rfl rfl

/-- Counterexample to claim C5 as stated: a request WITHOUT `auth_url` still gets
the reserved `context` key injected into the keyword input of the callable — it is
not omitted; it holds `{'os_session': None}`. -/
theorem context_key_not_omitted_counterexample :
    reqBase.auth_url = Option.none ∧
    ((execute reqBase envRet).childResult.bind ChildResult.callMade).map
        CallShape.keywords
      = Option.some [("context", Val.dict [("os_session", Val.vnone)])] :=
  ⟨rfl, rfl⟩

/-- Claim C5 (amended): a delegated-credential session is built exactly when
`auth_url` is truthy, but the reserved `context` key is ALWAYS injected into the
input mapping passed to the callable: it holds the session when `auth_url` is
present and a null session (`os_session = None`) when it is absent. -/
theorem context_injection (req : InvocationRequest) (env : ServerEnv)
    (fm fme : String) (hE : resolveEntry req.entry = Except.ok (fm, fme))
    (hD : env.downloadOk = true) (hL : env.child.limiterOk = true) :
    ((execute req env).childResult.bind ChildResult.callMade).map
        CallShape.keywords
      = Option.some (kwOf req env) ∧
    (kwOf req env).lookup "context"
      = Option.some (Val.dict [("os_session",
          if optTruthy req.auth_url then env.sessionVal else Val.vnone)]) ∧
    (optTruthy req.auth_url = false →
       (kwOf req env).lookup "context"
         = Option.some (Val.dict [("os_session", Val.vnone)])) := by
  have hlook : (kwOf req env).lookup "context"
      = Option.some (Val.dict [("os_session",
          if optTruthy req.auth_url then env.sessionVal else Val.vnone)]) := by
    unfold kwOf
    rw [lookup_dictRemove_ne _ _ _ (by decide)]
    unfold input1Of
    exact lookup_dictSet req.input "context" _
  refine ⟨?_, hlook, ?_⟩
  · rw [execute_run req env fm fme hE hD,
      runSandbox_of_limiterOk req env fm fme hL]
    simp [Option.some_bind, callMade_of_limiterOk _ _ _ _ _ _ hL,
      callShape_keywords]
  · intro hA
    rw [hlook, hA]
    simp

/-- Witness for C5 (amended): without `auth_url` the callable's keyword input
carries `context = {'os_session': None}`. -/
theorem context_injection_witness :
    ((execute reqBase envRet).childResult.bind ChildResult.callMade).map
        CallShape.keywords
      = Option.some (kwOf reqBase envRet) ∧
    (kwOf reqBase envRet).lookup "context"
      = Option.some (Val.dict [("os_session", Val.vnone)]) := by
  have h := context_injection reqBase envRet "main" "main" rfl rfl rfl
  exact ⟨h.1, h.2.2 rfl⟩

/-- Counterexample to claim C4 as stated: a request whose input mapping CONTAINS
the reserved positional-argument key with the falsy value `0` nevertheless calls
the user function with NO positional argument — the child branches on the
truthiness of the popped value, not on the key's presence. -/
theorem falsy_function_input_counterexample :
    reqFalsyArg.input.lookup "__function_input" = Option.some (Val.nat 0) ∧
    ((execute reqFalsyArg envRet).childResult.bind ChildResult.callMade)
      = Option.some
          { positional := Option.none,
            keywords := [("context", Val.dict [("os_session", Val.vnone)])] } :=
  ⟨rfl, rfl⟩

/-- Claim C4 (amended): the reserved `__function_input` key is popped from the
input mapping and its value is handed to the callable as the sole positional
argument exactly when that value is truthy; when the key is absent — or its value
is falsy — the callable receives only keyword input.  In every case the remaining
keys (the mapping with the reserved key removed) form the keyword input. -/
theorem function_input_call_shape (req : InvocationRequest) (env : ServerEnv)
    (fm fme : String) (hE : resolveEntry req.entry = Except.ok (fm, fme))
    (hD : env.downloadOk = true) (hL : env.child.limiterOk = true) :
    ((execute req env).childResult.bind ChildResult.callMade)
      = Option.some (callShape (argOf req env) (kwOf req env)) ∧
    (∀ v, (input1Of req env).lookup "__function_input" = Option.some v →
       v.truthy = true →
       callShape (argOf req env) (kwOf req env)
         = { positional := Option.some v,
             keywords := dictRemove (input1Of req env) "__function_input" }) ∧
    (∀ v, (input1Of req env).lookup "__function_input" = Option.some v →
       v.truthy = false →
       callShape (argOf req env) (kwOf req env)
         = { positional := Option.none,
             keywords := dictRemove (input1Of req env) "__function_input" }) ∧
    ((input1Of req env).lookup "__function_input" = Option.none →
       callShape (argOf req env) (kwOf req env)
         = { positional := Option.none,
             keywords := dictRemove (input1Of req env) "__function_input" }) := by
  refine ⟨?_, ?_, ?_, ?_⟩
  · rw [execute_run req env fm fme hE hD,
      runSandbox_of_limiterOk req env fm fme hL]
    simp [Option.some_bind, callMade_of_limiterOk _ _ _ _ _ _ hL]
  · intro v hv htr
    unfold callShape argOf
    rw [hv]
    simp only [Option.getD_some, htr, if_true]
    rfl
  · intro v hv htr
    unfold callShape argOf
    rw [hv]
    simp only [Option.getD_some, htr, Bool.false_eq_true, if_false]
    rfl
  · intro hv
    unfold callShape argOf
    rw [hv]
    simp only [Option.getD_none]
    rfl

/-- Witness for C4 (amended): a truthy reserved value is passed positionally with
the remaining keys as keyword input, and the child records that call shape. -/
theorem function_input_call_shape_witness :
    callShape (argOf reqTruthyArg envRet) (kwOf reqTruthyArg envRet)
      = { positional := Option.some (Val.str "pos"),
          keywords := dictRemove (input1Of reqTruthyArg envRet)
                        "__function_input" } ∧
    ((execute reqTruthyArg envRet).childResult.bind ChildResult.callMade)
      = Option.some (callShape (argOf reqTruthyArg envRet)
          (kwOf reqTruthyArg envRet)) := by
  have h := function_input_call_shape reqTruthyArg envRet "main" "main" rfl rfl rfl
  exact ⟨h.2.1 (Val.str "pos") rfl rfl, h.1⟩

/-- Counterexample to claim C6 as stated: an accepted request (entry resolves, the
download succeeds, the sandbox is spawned) for which the handler produces NO
`InvocationResponse` at all — the limiter-rejected child exits before creating the
log file and the handler's read of that file raises. -/
theorem response_missing_counterexample :
    (execute reqBase envLimFail).spawned = true ∧
    (execute reqBase envLimFail).response = Except.error ExecErr.logMissing :=
  ⟨rfl, rfl⟩

/-- Claim C6 (amended): for every accepted request whose sandbox creates its log
file — i.e. whose cgroup-limiter call succeeds — exactly one response is produced,
the per-execution log artifact no longer exists when the handler returns, and the
response's `logs` field is exactly the captured text read before deletion; when
the limiter rejects, the log file was never created and the handler raises instead
of producing a response (the artifact still does not survive). -/
theorem response_and_log_cleanup (req : InvocationRequest) (env : ServerEnv)
    (fm fme : String) (hE : resolveEntry req.entry = Except.ok (fm, fme))
    (hD : env.downloadOk = true) (hL : env.child.limiterOk = true) :
    (execute req env).finalLogExists = false ∧
    ∀ cr, (execute req env).childResult = Option.some cr →
      cr.logCreated = true ∧
      (execute req env).response = Except.ok
        { output := (classify cr.exitcode cr.result cr.success).1,
          duration := env.elapsed, logs := cr.log,
          success := (classify cr.exitcode cr.result cr.success).2,
          http_status := 200 } := by
  rw [execute_run req env fm fme hE hD, runSandbox_of_limiterOk req env fm fme hL]
  refine ⟨rfl, ?_⟩
  intro cr hcr
  simp only [Option.some.injEq] at hcr
  subst hcr
  exact ⟨logCreated_of_limiterOk _ _ _ _ _ _ hL, rfl⟩

/-- Witness for C6 (amended): a completed invocation leaves no log artifact and
reports exactly the captured log text. -/
theorem response_and_log_cleanup_witness :
    (execute reqBase envRet).finalLogExists = false ∧
    (execute reqBase envRet).response = Except.ok
      { output := Val.nat 7, duration := 3,
        logs := startLine "e1" ++ "" ++ finishedLine "e1",
        success := true, http_status := 200 } := by
  have h := response_and_log_cleanup reqBase envRet "main" "main" rfl rfl rfl
  refine ⟨h.1, ?_⟩
  have h2 := (h.2 (invokeFunction reqBase.execution_id "main" "main"
    (argOf reqBase envRet) (kwOf reqBase envRet) envRet.child) rfl).2
  exact h2
